import Mathlib

/-!
Verification of the receipt-OCR application (`src/app.py`).

The application exposes a single operation `ocr_receipt(image)` returning a
pair `(recognized_text, debug_log)`.  It normalizes the input image, writes it
to a temporary file, tries PaddleOCR first and EasyOCR second, extracts plain
text from each engine's dynamically-typed raw result defensively, and returns
a diagnostic trace of every step.  The embedding below models the dynamic
(Python) values flowing through the extractors, the module-level engine
registry initialization, and the full control flow of `ocr_receipt`, including
the temporary-file lifecycle (creation, per-branch removal, and the `finally`
block).
-/

namespace OcrApp

/-- Dynamic Python-like values appearing in raw engine results
(`res` in `ocr_receipt`). -/
inductive PyVal where
  | pynone
  | int (n : Int)
  | float (lit : String)
  | str (s : String)
  | list (xs : List PyVal)
  | tuple (xs : List PyVal)

/-- A single quote character, used by the Python `repr` rendering. -/
def squote : String := (Char.ofNat 39).toString

/-- Join a list of strings with a separator, as Python `sep.join(...)`. -/
def joinSep (sep : String) : List String → String
  | [] => ""
  | [a] => a
  | a :: b :: rest => a ++ sep ++ joinSep sep (b :: rest)

/-- `"\n".join(...)` as used for both recognized lines and the debug log. -/
def joinNL (l : List String) : String := joinSep "\n" l

mutual

/-- Model of Python `repr()` for the dynamic values above. -/
def pyRepr : PyVal → String
  | .pynone => "None"
  | .int n => toString n
  | .float lit => lit
  | .str s => squote ++ s ++ squote
  | .list xs => "[" ++ joinSep ", " (pyReprList xs) ++ "]"
  | .tuple [x] => "(" ++ pyRepr x ++ ",)"
  | .tuple xs => "(" ++ joinSep ", " (pyReprList xs) ++ ")"

/-- `repr` of every element of a list. -/
def pyReprList : List PyVal → List String
  | [] => []
  | x :: xs => pyRepr x :: pyReprList xs

end

/-- Model of Python `str()`: identity on strings, `repr` otherwise. -/
def pyStr : PyVal → String
  | .str s => s
  | v => pyRepr v

/-- Model of Python iteration `for x in v`: `some` elements when `v` is
iterable (list, tuple, or string — a string yields its characters), `none`
when iteration raises `TypeError`. -/
def pyIter : PyVal → Option (List PyVal)
  | .list xs => some xs
  | .tuple xs => some xs
  | .str s => some (s.data.map (fun c => .str c.toString))
  | _ => none

/-- Model of Python subscription `v[i]` for a non-negative index: `none` when
it raises (`TypeError`/`IndexError`). -/
def pyGet : PyVal → Nat → Option PyVal
  | .list xs, i => xs.get? i
  | .tuple xs, i => xs.get? i
  | .str s, i => (s.data.get? i).map (fun c => .str c.toString)
  | _, _ => none

/-- `item[1][0]` — the fixed nested position PaddleOCR extraction reads
(app.py line 97). -/
def paddleTextAt (item : PyVal) : Option PyVal :=
  (pyGet item 1).bind (fun t => pyGet t 0)

/-- Per-item PaddleOCR extraction (app.py lines 96-100): try `item[1][0]`,
fall back to `str(item)` on any failure. -/
def extractItemPaddle (item : PyVal) : PyVal :=
  (paddleTextAt item).getD (.str (pyStr item))

/-- `isinstance(page, list)` (app.py line 93). -/
def isPyList : PyVal → Bool
  | .list _ => true
  | _ => false

/-- Per-page PaddleOCR extraction (app.py lines 93-102): a list page is
mapped item-wise, anything else is stringified as a single line. -/
def extractPagePaddle (page : PyVal) : List PyVal :=
  match page with
  | .list items => items.map extractItemPaddle
  | page => [.str (pyStr page)]

/-- Whole-result PaddleOCR extraction (app.py lines 90-106).  The boolean
reports whether the outer fallback (`lines = [str(res)]`, with its extra
debug line) fired, which happens exactly when iterating `res` raises. -/
def paddleExtract (res : PyVal) : List PyVal × Bool :=
  match pyIter res with
  | some pages => ((pages.map extractPagePaddle).flatten, false)
  | none => ([.str (pyStr res)], true)

/-- Per-item EasyOCR extraction (app.py lines 128-132): try `item[1]`,
fall back to `str(item)` on failure. -/
def extractItemEasy (item : PyVal) : PyVal :=
  (pyGet item 1).getD (.str (pyStr item))

/-- `some s` when the value is a Python `str`, else `none`.  Used to model
that `"\n".join(lines)` raises `TypeError` on a non-string element. -/
def strOfVal? : PyVal → Option String
  | .str s => some s
  | _ => none

/-- All elements as strings, or `none` if some element is not a string
(in which case `"\n".join` raises). -/
def allStrs : List PyVal → Option (List String)
  | [] => some []
  | v :: vs =>
    match strOfVal? v, allStrs vs with
    | some s, some ss => some (s :: ss)
    | _, _ => none

/-- Python whitespace, as removed by `str.strip()`. -/
def isPySpace (c : Char) : Bool :=
  c = ' ' || c = '\t' || c = '\n' || c = '\r' || c = '\x0b' || c = '\x0c'

/-- Model of Python `str.strip()`. -/
def pyStrip (s : String) : String :=
  String.mk (((s.data.dropWhile isPySpace).reverse.dropWhile isPySpace).reverse)

/-- Python `x or default` on an optional failure-detail string: the default is
used when the value is `None` or the empty string (both falsy). -/
def pyOr (o : Option String) (d : String) : String :=
  match o with
  | some s => if s = "" then d else s
  | none => d

/-- Module-level engine registry state (app.py lines 9-47):
availability flags, whether each handle (`paddle_ocr` / `easy_reader`)
is non-`None`, and the stored import/initialization failure details. -/
structure Registry where
  PADDLE_AVAILABLE : Bool
  EASY_AVAILABLE : Bool
  paddlePresent : Bool
  easyPresent : Bool
  paddle_import_error : Option String
  easy_import_error : Option String
deriving DecidableEq

/-- The module initialization code (app.py lines 16-47): each engine is
imported, and on import success its handle is constructed once; a failure at
either step clears the availability flag, leaves the handle `None`, and
stores the failure detail (construction failure overwrites the import
detail). -/
def initRegistry (paddleImport easyImport paddleCtor easyCtor :
    Except String Unit) : Registry :=
  let pav : Bool × Option String :=
    match paddleImport with
    | .ok _ => (true, none)
    | .error e => (false, some e)
  let eav : Bool × Option String :=
    match easyImport with
    | .ok _ => (true, none)
    | .error e => (false, some e)
  let p2 : Bool × Bool × Option String :=
    if pav.1 then
      match paddleCtor with
      | .ok _ => (true, true, pav.2)
      | .error e => (false, false, some e)
    else (pav.1, false, pav.2)
  let e2 : Bool × Bool × Option String :=
    if eav.1 then
      match easyCtor with
      | .ok _ => (true, true, eav.2)
      | .error e => (false, false, some e)
    else (eav.1, false, eav.2)
  { PADDLE_AVAILABLE := p2.1, EASY_AVAILABLE := e2.1,
    paddlePresent := p2.2.1, easyPresent := e2.2.1,
    paddle_import_error := p2.2.2, easy_import_error := e2.2.2 }

/-- Input image (app.py lines 58-72): either a 2-D (grayscale) pixel array or
a 3-D array with a per-pixel channel count `c`. -/
inductive Image where
  | gray (rows : List (List Nat))
  | color (c : Nat) (rows : List (List (List Nat)))

/-- Channel count of an image (1 for a 2-D grayscale array). -/
def Image.channels : Image → Nat
  | .gray _ => 1
  | .color c _ => c

/-- The normalization step (app.py lines 64-72): grayscale is expanded to
three equal channels (`COLOR_GRAY2BGR`), four channels drop alpha and
reverse to BGR (`COLOR_RGBA2BGR`), three channels reverse to BGR
(`COLOR_RGB2BGR`); any other 3-D channel count makes `cv2.cvtColor` raise,
which the top-level handler of `ocr_receipt` catches. -/
def cvtColor : Image → Except String (List (List (List Nat)))
  | .gray rows => .ok (rows.map (fun r => r.map (fun g => [g, g, g])))
  | .color 4 rows => .ok (rows.map (fun r => r.map (fun p => (p.take 3).reverse)))
  | .color 3 rows => .ok (rows.map (fun r => r.map (fun p => p.reverse)))
  | .color _ _ => .error "cv2.error: Invalid number of channels in input image"

/-- One request: the (optional) input image and the behavior of each engine's
recognition call, were it invoked (`paddle_ocr.ocr` / `easy_reader.readtext`):
either a raised exception (detail string) or a raw dynamic result. -/
structure Request where
  image : Option Image
  paddleCall : Except String PyVal
  easyCall : Except String PyVal

/-- The temporary file name produced by `tempfile.NamedTemporaryFile`
(app.py line 75). -/
def tmp_path : String := "/tmp/tmpreceipt.jpg"

def msgTmp : String := "Временный файл: " ++ tmp_path
def msgTryPaddle : String := "Пробуем PaddleOCR..."
def msgPaddleReturned : String := "PaddleOCR вернул результат."
def msgPaddleUnexpected : String := "Неожиданная структура результата PaddleOCR."
def msgPaddleEmpty : String := "PaddleOCR вернул пустой текст."
def msgPaddleFailHdr : String := "Ошибка при запуске PaddleOCR:"
def msgTryEasy : String := "Пробуем EasyOCR..."
def msgEasyReturned : String := "EasyOCR вернул результат."
def msgEasyEmpty : String := "EasyOCR вернул пустой текст."
def msgEasyFailHdr : String := "Ошибка при запуске EasyOCR:"
def msgNoneWork : String := "Ни PaddleOCR, ни EasyOCR не доступны или обе вернули ошибку."
def msgPaddleUnavailable : String := "PaddleOCR недоступен. Ошибка импорта/инициализации:"
def msgEasyUnavailable : String := "EasyOCR недоступен. Ошибка импорта/инициализации:"
def msgNoInfo : String := "нет дополнительной информации"
def msgNoImage : String := "Ошибка: изображение не загружено."
def msgInternalHdr : String := "Внутренняя ошибка:\n"
def joinTypeErrorMsg : String := "TypeError: sequence item: expected str instance"
def iterTypeErrorMsg : String := "TypeError: object is not iterable"

/-- The fixed remediation hints (app.py lines 155-158). -/
def hintLines : List String :=
  ["\nРекомендации:",
   "1) Установите paddleocr и paddlepaddle (pip install paddleocr paddlepaddle) или easyocr (pip install easyocr).",
   "2) Проверьте, что команда запускается в том же окружении, где установлены пакеты.",
   "3) Если используете Windows и возникает ошибка установки paddlepaddle, попробуйте подходящий wheel с официального сайта paddlepaddle."]

/-- The lines the fallthrough block (app.py lines 146-159) appends to the
debug log: the summary line, the unavailable-engine notices with their stored
details, and the fixed hints. -/
def finalTail (reg : Registry) : List String :=
  [msgNoneWork]
  ++ (if reg.PADDLE_AVAILABLE then []
      else [msgPaddleUnavailable, pyOr reg.paddle_import_error msgNoInfo])
  ++ (if reg.EASY_AVAILABLE then []
      else [msgEasyUnavailable, pyOr reg.easy_import_error msgNoInfo])
  ++ hintLines

/-- Outcome of one engine attempt: a normal `return` from inside the branch
(with the final debug lines), or a caught exception that falls through to the
next stage (with the debug lines accumulated so far). -/
inductive EngineStep where
  | ret (text : String) (dlines : List String)
  | fail (dlines : List String)
deriving DecidableEq

/-- The PaddleOCR branch (app.py lines 82-116).  A successful call extracts
lines (possibly with the unexpected-structure fallback), joins them — which
raises if an extracted token is not a string — strips the result, and returns
it even when it is empty; any exception inside the branch is caught and
logged, falling through to EasyOCR.  On `ret` the temporary file has been
removed (line 109); on `fail` it has not. -/
def paddleBranch (req : Request) (d : List String) : EngineStep :=
  let d1 := d ++ [msgTryPaddle]
  match req.paddleCall with
  | .error e => .fail (d1 ++ [msgPaddleFailHdr, e])
  | .ok res =>
    let d2 := d1 ++ [msgPaddleReturned]
    let pe := paddleExtract res
    let d3 := if pe.2 then d2 ++ [msgPaddleUnexpected] else d2
    match allStrs pe.1 with
    | none => .fail (d3 ++ [msgPaddleFailHdr, joinTypeErrorMsg])
    | some ss =>
      let recognized := pyStrip (joinNL ss)
      let d4 := if recognized = "" then d3 ++ [msgPaddleEmpty] else d3
      .ret recognized d4

/-- The EasyOCR branch (app.py lines 119-144).  Iteration over the raw result
is not protected by an inner handler, so a non-iterable result is caught by
the branch handler like a raised call; on both `ret` (line 134) and `fail`
(lines 141-144) the temporary file has been removed. -/
def easyBranch (req : Request) (d : List String) : EngineStep :=
  let d1 := d ++ [msgTryEasy]
  match req.easyCall with
  | .error e => .fail (d1 ++ [msgEasyFailHdr, e])
  | .ok res =>
    let d2 := d1 ++ [msgEasyReturned]
    match pyIter res with
    | none => .fail (d2 ++ [msgEasyFailHdr, iterTypeErrorMsg])
    | some items =>
      match allStrs (items.map extractItemEasy) with
      | none => .fail (d2 ++ [msgEasyFailHdr, joinTypeErrorMsg])
      | some ss =>
        let recognized := pyStrip (joinNL ss)
        let d3 := if recognized = "" then d2 ++ [msgEasyEmpty] else d2
        .ret recognized d3

/-- The stage after PaddleOCR did not return (app.py lines 119-160): try
EasyOCR if its handle is present, otherwise or on its failure run the
fallthrough block.  Returns the recognized text, the debug lines, and whether
the temporary file still exists when control reaches the `finally` block
(EasyOCR removes it on both success and failure; if EasyOCR is absent the
file is still present). -/
def easyStage (reg : Registry) (req : Request) (d : List String) :
    String × List String × Bool :=
  if reg.easyPresent then
    match easyBranch req d with
    | .ret t dd => (t, dd, false)
    | .fail dd => ("", dd ++ finalTail reg, false)
  else ("", d ++ finalTail reg, true)

/-- The orchestration after the temporary file exists (app.py lines 82-160):
try PaddleOCR if its handle is present (a normal branch return removes the
temporary file), then the EasyOCR stage.  Returns the recognized text, the
debug lines, and whether the temporary file still exists when control reaches
the `finally` block. -/
def ocrCore (reg : Registry) (req : Request) (d0 : List String) :
    String × List String × Bool :=
  if reg.paddlePresent then
    match paddleBranch req d0 with
    | .ret t d => (t, d, false)
    | .fail d => easyStage reg req d
  else easyStage reg req d0

/-- Result of one `ocr_receipt` call: the two returned strings plus the
temporary-file lifecycle (whether it was created, whether it still existed
when the `finally` block ran, and whether it exists after the call). -/
structure Outcome where
  text : String
  trace : String
  tmpCreated : Bool
  tmpBefore : Bool
  tmpAfter : Bool
deriving DecidableEq

/-- `ocr_receipt(image)` (app.py lines 49-171): `None` image returns the
fixed message with no temporary file; a normalization failure is caught by
the top-level handler; otherwise the temporary file is created, the engines
run, and the `finally` block removes the temporary file if it still exists. -/
def ocr_receipt (reg : Registry) (req : Request) : Outcome :=
  match req.image with
  | none =>
    { text := "", trace := msgNoImage,
      tmpCreated := false, tmpBefore := false, tmpAfter := false }
  | some img =>
    match cvtColor img with
    | .error e =>
      { text := "", trace := msgInternalHdr ++ e,
        tmpCreated := false, tmpBefore := false, tmpAfter := false }
    | .ok _ =>
      let r := ocrCore reg req [msgTmp]
      { text := r.1, trace := joinNL r.2.1, tmpCreated := true,
        tmpBefore := r.2.2,
        tmpAfter := if r.2.2 then false else r.2.2 }

/-- The debug lines carried by an engine step, whichever way it ended. -/
def EngineStep.dlines : EngineStep → List String
  | .ret _ d => d
  | .fail d => d

theorem append_ne_empty_left (a b : String) (h : a ≠ "") :
    a ++ b ≠ "" := by
  intro hc
  apply h
  have hlen : a.length + b.length = 0 := by
    have h2 := congrArg String.length hc
    rwa [String.length_append, show ("" : String).length = 0 from rfl] at h2
  have ha : a.length = 0 := by omega
  cases a with
  | mk l =>
    cases l with
    | nil => rfl
    | cons c cs => simp [String.length] at ha

theorem joinSep_cons_cons (sep a b : String) (t : List String) :
    joinSep sep (a :: b :: t) = a ++ sep ++ joinSep sep (b :: t) := rfl

theorem joinSep_ne_empty (sep a : String) (l : List String)
    (ha : a ≠ "") : joinSep sep (a :: l) ≠ "" := by
  cases l with
  | nil => simpa [joinSep] using ha
  | cons b t =>
    rw [joinSep_cons_cons]
    exact append_ne_empty_left _ _ (append_ne_empty_left _ _ ha)

theorem infixData_of_mem_joinSep (sep : String) {s : String} {l : List String}
    (h : s ∈ l) : s.data <:+: (joinSep sep l).data := by
  induction l with
  | nil => cases h
  | cons a t ih =>
    cases h with
    | head =>
      cases t with
      | nil => exact List.infix_rfl
      | cons b tt =>
        refine ⟨[], (sep ++ joinSep sep (b :: tt)).data, ?_⟩
        simp [joinSep_cons_cons, String.data_append, List.append_assoc]
    | tail _ hmem =>
      cases t with
      | nil => cases hmem
      | cons b tt =>
        have h2 : (joinSep sep (b :: tt)).data <:+:
            (joinSep sep (a :: b :: tt)).data := by
          refine ⟨(a ++ sep).data, [], ?_⟩
          simp [joinSep_cons_cons, String.data_append, List.append_assoc]
        exact (ih hmem).trans h2

theorem paddleBranch_dlines (req : Request) (d : List String) :
    ∃ t, (paddleBranch req d).dlines = d ++ t := by
  dsimp only [paddleBranch]
  repeat' split
  all_goals simp only [EngineStep.dlines, List.append_assoc]
  all_goals exact ⟨_, rfl⟩

theorem easyBranch_dlines (req : Request) (d : List String) :
    ∃ t, (easyBranch req d).dlines = d ++ t := by
  dsimp only [easyBranch]
  repeat' split
  all_goals simp only [EngineStep.dlines, List.append_assoc]
  all_goals exact ⟨_, rfl⟩

theorem easyStage_dlines (reg : Registry) (req : Request) (d : List String) :
    ∃ t, (easyStage reg req d).2.1 = d ++ t := by
  unfold easyStage
  split
  · obtain ⟨u, hu⟩ := easyBranch_dlines req d
    cases hb : easyBranch req d with
    | ret t dd =>
      rw [hb] at hu
      simp only [EngineStep.dlines] at hu
      exact ⟨u, hu⟩
    | fail dd =>
      rw [hb] at hu
      simp only [EngineStep.dlines] at hu
      exact ⟨u ++ finalTail reg, by simp only [hu, List.append_assoc]⟩
  · exact ⟨finalTail reg, rfl⟩

theorem ocrCore_dlines (reg : Registry) (req : Request) (d0 : List String) :
    ∃ t, (ocrCore reg req d0).2.1 = d0 ++ t := by
  unfold ocrCore
  split
  · obtain ⟨u, hu⟩ := paddleBranch_dlines req d0
    cases hb : paddleBranch req d0 with
    | ret t dd =>
      rw [hb] at hu
      simp only [EngineStep.dlines] at hu
      exact ⟨u, hu⟩
    | fail dd =>
      rw [hb] at hu
      simp only [EngineStep.dlines] at hu
      obtain ⟨v, hv⟩ := easyStage_dlines reg req dd
      exact ⟨u ++ v, by rw [hv, hu, List.append_assoc]⟩
  · exact easyStage_dlines reg req d0

theorem ocr_receipt_run (reg : Registry) (req : Request) (img : Image)
    (bgr : List (List (List Nat)))
    (himg : req.image = some img) (hcvt : cvtColor img = .ok bgr) :
    ocr_receipt reg req =
      { text := (ocrCore reg req [msgTmp]).1,
        trace := joinNL (ocrCore reg req [msgTmp]).2.1,
        tmpCreated := true,
        tmpBefore := (ocrCore reg req [msgTmp]).2.2,
        tmpAfter := if (ocrCore reg req [msgTmp]).2.2 then false
                    else (ocrCore reg req [msgTmp]).2.2 } := by
  unfold ocr_receipt
  rw [himg]
  dsimp only
  rw [hcvt]

theorem ocrCore_paddle_ret (reg : Registry) (req : Request)
    (d0 d : List String) (t : String)
    (hp : reg.paddlePresent = true) (hb : paddleBranch req d0 = .ret t d) :
    ocrCore reg req d0 = (t, d, false) := by
  unfold ocrCore
  rw [hp, hb]
  rfl

theorem ocrCore_paddle_fail (reg : Registry) (req : Request)
    (d0 d : List String)
    (hp : reg.paddlePresent = true) (hb : paddleBranch req d0 = .fail d) :
    ocrCore reg req d0 = easyStage reg req d := by
  unfold ocrCore
  rw [hp, hb]
  rfl

theorem ocrCore_no_paddle (reg : Registry) (req : Request) (d0 : List String)
    (hp : reg.paddlePresent = false) :
    ocrCore reg req d0 = easyStage reg req d0 := by
  unfold ocrCore
  rw [hp]
  rfl

set_option maxRecDepth 1000000

/-- C5: calling `ocr_receipt` with a `None` image returns empty text together
with the trace stating the image was not supplied (app.py lines 55-56), no
temporary file is ever constructed (`tmpCreated = false`), and the call
returns normally (the function is total). -/
theorem no_image_returns_message (reg : Registry) (req : Request)
    (h : req.image = none) :
    ocr_receipt reg req =
      { text := "", trace := msgNoImage,
        tmpCreated := false, tmpBefore := false, tmpAfter := false } := by
  unfold ocr_receipt
  rw [h]

/-- Witness for C5 at a concrete registry and request. -/
theorem no_image_returns_message_witness :
    ocr_receipt (initRegistry (.ok ()) (.ok ()) (.ok ()) (.ok ()))
      { image := none, paddleCall := .error "call not reached",
        easyCall := .error "call not reached" } =
      { text := "", trace := msgNoImage,
        tmpCreated := false, tmpBefore := false, tmpAfter := false } :=
  no_image_returns_message _ _ rfl

/-- C6: on every exit path of `ocr_receipt` (no-image return, internal error,
PaddleOCR short-circuit return, EasyOCR return or failure, fallthrough with
both engines out) the temporary file is absent after the call: the per-branch
`os.remove` calls together with the `finally` block (app.py lines 165-171)
guarantee `tmpAfter = false` for every registry and request. -/
theorem tmp_file_absent_after_return (reg : Registry) (req : Request) :
    (ocr_receipt reg req).tmpAfter = false := by
  unfold ocr_receipt
  split
  · rfl
  · split
    · rfl
    · dsimp only
      cases h : (ocrCore reg req [msgTmp]).2.2 <;> simp [h]

/-- C7: `ocr_receipt` always returns a pair (it is a total function — every
failure is caught), and the two outputs are never both empty: on every path
that produces empty text the trace is a non-empty explanation. -/
theorem never_both_empty (reg : Registry) (req : Request) :
    ¬ ((ocr_receipt reg req).text = "" ∧ (ocr_receipt reg req).trace = "") := by
  suffices h : (ocr_receipt reg req).trace ≠ "" from fun hc => h hc.2
  unfold ocr_receipt
  cases himg : req.image with
  | none => exact (by decide : msgNoImage ≠ "")
  | some img =>
    dsimp only
    cases hcvt : cvtColor img with
    | error e =>
      dsimp only
      exact append_ne_empty_left msgInternalHdr e (by decide)
    | ok bgr =>
      dsimp only
      obtain ⟨t, ht⟩ := ocrCore_dlines reg req [msgTmp]
      rw [ht, List.singleton_append]
      exact joinSep_ne_empty "\n" msgTmp t (by decide)

/-- Witness for C7 at a concrete registry and request. -/
theorem never_both_empty_witness :
    ¬ ((ocr_receipt (initRegistry (.ok ()) (.ok ()) (.ok ()) (.ok ()))
          { image := none, paddleCall := .error "x", easyCall := .error "y" }).text = "" ∧
        (ocr_receipt (initRegistry (.ok ()) (.ok ()) (.ok ()) (.ok ()))
          { image := none, paddleCall := .error "x", easyCall := .error "y" }).trace = "") :=
  never_both_empty _ _

/-- A well-formed PaddleOCR detection item `[box, (text, conf)]`. -/
def demoItem1 : PyVal :=
  .list [.list [.int 0, .int 0], .tuple [.str "Total 500", .float "0.9"]]

/-- A second well-formed PaddleOCR detection item. -/
def demoItem2 : PyVal :=
  .list [.list [.int 0, .int 1], .tuple [.str "Thank you", .float "0.8"]]

/-- A PaddleOCR raw result with one page holding the two items above. -/
def demoRes : PyVal := .list [.list [demoItem1, demoItem2]]

/-- C8: whenever reading the text field of one item at the expected fixed
position fails, the extractor emits `str(item)` for that item and leaves every
other item's extraction untouched, for both the PaddleOCR variant
(`item[1][0]`, app.py lines 96-99) and the EasyOCR variant (`item[1]`,
app.py lines 128-131); the request then completes normally because the
extractors are total functions. -/
theorem malformed_item_stringified :
    (∀ (pre post : List PyVal) (item : PyVal), paddleTextAt item = none →
      extractPagePaddle (.list (pre ++ item :: post)) =
        pre.map extractItemPaddle ++
          PyVal.str (pyStr item) :: post.map extractItemPaddle) ∧
    (∀ (pre post : List PyVal) (item : PyVal), pyGet item 1 = none →
      (pre ++ item :: post).map extractItemEasy =
        pre.map extractItemEasy ++
          PyVal.str (pyStr item) :: post.map extractItemEasy) := by
  constructor
  · intro pre post item h
    simp [extractPagePaddle, List.map_append, extractItemPaddle, h]
  · intro pre post item h
    simp [List.map_append, extractItemEasy, h]

/-- Witness for C8: a malformed item (`7`, with no `[1][0]` position) between
two well-formed items is stringified while the neighbours are extracted. -/
theorem malformed_item_stringified_witness :
    extractPagePaddle (.list ([demoItem1] ++ PyVal.int 7 :: [demoItem2])) =
      [demoItem1].map extractItemPaddle ++
        PyVal.str (pyStr (PyVal.int 7)) :: [demoItem2].map extractItemPaddle :=
  malformed_item_stringified.1 [demoItem1] [demoItem2] (.int 7) rfl

/-- C9: for each of the three input shapes the normalizer accepts (2-D
grayscale, i.e. channel count 1; 4 channels; 3 channels) the output has
exactly 3 channels per pixel, and the transform is the pixel-wise one the
code performs — duplication for grayscale, alpha-drop plus reorder for 4
channels, reorder for 3 channels — with no resizing (each output is a
pixel-wise `map` of the input, so row and column counts are unchanged) and
no contrast adjustment. -/
theorem normalizer_output_three_channels :
    (∀ rows : List (List Nat),
      cvtColor (.gray rows) =
        .ok (rows.map (fun r => r.map (fun g => [g, g, g]))) ∧
      ∀ r ∈ rows.map (fun r => r.map (fun g => [g, g, g])),
        ∀ p ∈ r, p.length = 3) ∧
    (∀ rows : List (List (List Nat)),
      (∀ r ∈ rows, ∀ p ∈ r, p.length = 4) →
      cvtColor (.color 4 rows) =
        .ok (rows.map (fun r => r.map (fun p => (p.take 3).reverse))) ∧
      ∀ r ∈ rows.map (fun r => r.map (fun p => (p.take 3).reverse)),
        ∀ p ∈ r, p.length = 3) ∧
    (∀ rows : List (List (List Nat)),
      (∀ r ∈ rows, ∀ p ∈ r, p.length = 3) →
      cvtColor (.color 3 rows) =
        .ok (rows.map (fun r => r.map (fun p => p.reverse))) ∧
      ∀ r ∈ rows.map (fun r => r.map (fun p => p.reverse)),
        ∀ p ∈ r, p.length = 3) := by
  refine ⟨?_, ?_, ?_⟩
  · intro rows
    refine ⟨rfl, ?_⟩
    intro r hr p hp
    simp only [List.mem_map] at hr
    obtain ⟨r0, _, rfl⟩ := hr
    simp only [List.mem_map] at hp
    obtain ⟨g, _, rfl⟩ := hp
    rfl
  · intro rows hwf
    refine ⟨rfl, ?_⟩
    intro r hr p hp
    simp only [List.mem_map] at hr
    obtain ⟨r0, hr0, rfl⟩ := hr
    simp only [List.mem_map] at hp
    obtain ⟨p0, hp0, rfl⟩ := hp
    have h4 := hwf r0 hr0 p0 hp0
    simp [List.length_take, h4]
  · intro rows hwf
    refine ⟨rfl, ?_⟩
    intro r hr p hp
    simp only [List.mem_map] at hr
    obtain ⟨r0, hr0, rfl⟩ := hr
    simp only [List.mem_map] at hp
    obtain ⟨p0, hp0, rfl⟩ := hp
    have h3 := hwf r0 hr0 p0 hp0
    simp [h3]

/-- Witness for C9: the 4-channel part applied to a one-pixel image. -/
theorem normalizer_output_three_channels_witness :
    cvtColor (.color 4 [[[10, 20, 30, 40]]]) =
      .ok ([[[10, 20, 30, 40]]].map (fun r => r.map (fun p => (p.take 3).reverse))) ∧
    ∀ r ∈ [[[10, 20, 30, 40]]].map (fun r => r.map (fun p => (p.take 3).reverse)),
      ∀ p ∈ r, p.length = 3 :=
  normalizer_output_three_channels.2.1 [[[10, 20, 30, 40]]] (by decide)

/-- C10: PaddleOCR (Variant A) extraction is total and never raises: a page
that is not a Python list is rendered as one stringified line (app.py
lines 101-102), a raw result over which iteration raises is replaced by the
single line `str(res)` together with the unexpected-structure marker (app.py
lines 103-106), and extraction is defined for every raw value. -/
theorem variantA_extraction_total :
    (∀ page : PyVal, isPyList page = false →
      extractPagePaddle page = [.str (pyStr page)]) ∧
    (∀ res : PyVal, pyIter res = none →
      paddleExtract res = ([.str (pyStr res)], true)) ∧
    (∀ res : PyVal, ∃ lines fb, paddleExtract res = (lines, fb)) := by
  refine ⟨?_, ?_, fun res => ⟨_, _, rfl⟩⟩
  · intro page h
    cases page <;> first | rfl | (simp [isPyList] at h)
  · intro res h
    unfold paddleExtract
    rw [h]

/-- Witness for C10: a non-list page and a non-iterable raw result. -/
theorem variantA_extraction_total_witness :
    extractPagePaddle (.tuple [.int 5]) = [.str (pyStr (.tuple [.int 5]))] ∧
    paddleExtract .pynone = ([.str (pyStr .pynone)], true) :=
  ⟨variantA_extraction_total.1 (.tuple [.int 5]) rfl,
   variantA_extraction_total.2.1 .pynone rfl⟩

/-- C2: when the PaddleOCR handle is present, its call succeeds, every
extracted token is a string (so the join succeeds), and the stripped joined
text is empty, `ocr_receipt` returns immediately with empty text (app.py
line 112): the outcome does not depend on the EasyOCR call at all, and the
trace never mentions attempting EasyOCR. -/
theorem paddle_empty_text_short_circuit (reg : Registry) (req : Request)
    (img : Image) (bgr : List (List (List Nat))) (res : PyVal)
    (ss : List String)
    (himg : req.image = some img) (hcvt : cvtColor img = .ok bgr)
    (hp : reg.paddlePresent = true) (hcall : req.paddleCall = .ok res)
    (hss : allStrs (paddleExtract res).1 = some ss)
    (hempty : pyStrip (joinNL ss) = "") :
    (ocr_receipt reg req).text = "" ∧
    (∀ c, ocr_receipt reg { req with easyCall := c } = ocr_receipt reg req) ∧
    ¬ (msgTryEasy.data <:+: (ocr_receipt reg req).trace.data) := by
  have hb : paddleBranch req [msgTmp] = .ret ""
      (if (paddleExtract res).2 then
        [msgTmp, msgTryPaddle, msgPaddleReturned, msgPaddleUnexpected,
         msgPaddleEmpty]
       else [msgTmp, msgTryPaddle, msgPaddleReturned, msgPaddleEmpty]) := by
    unfold paddleBranch
    rw [hcall]
    dsimp only
    rw [hss]
    dsimp only
    rw [hempty]
    by_cases hfb : (paddleExtract res).2 <;> simp [hfb]
  have hcore : ocrCore reg req [msgTmp] = ("", _, false) :=
    ocrCore_paddle_ret reg req _ _ _ hp hb
  have hout := ocr_receipt_run reg req img bgr himg hcvt
  rw [hcore] at hout
  refine ⟨by rw [hout], ?_, ?_⟩
  · intro c
    have hcore2 : ocrCore reg { req with easyCall := c } [msgTmp] =
        ("", _, false) :=
      ocrCore_paddle_ret reg { req with easyCall := c } _ _ _ hp hb
    have hout2 := ocr_receipt_run reg { req with easyCall := c } img bgr himg hcvt
    rw [hcore2] at hout2
    rw [hout, hout2]
  · rw [hout]
    by_cases hfb : (paddleExtract res).2 <;> simp only [hfb] <;>
      simp only [if_true, if_false, Bool.false_eq_true] <;> decide

/-- Witness for C2: PaddleOCR present, its call returns an empty page list,
EasyOCR present but never consulted. -/
theorem paddle_empty_text_short_circuit_witness :
    (ocr_receipt (initRegistry (.ok ()) (.ok ()) (.ok ()) (.ok ()))
      { image := some (.gray [[128]]), paddleCall := .ok (.list []),
        easyCall := .ok (.list [.list [.list [], .str "never read",
          .float "0.5"]]) }).text = "" ∧
    (∀ c, ocr_receipt (initRegistry (.ok ()) (.ok ()) (.ok ()) (.ok ()))
      { image := some (.gray [[128]]), paddleCall := .ok (.list []),
        easyCall := c } =
      ocr_receipt (initRegistry (.ok ()) (.ok ()) (.ok ()) (.ok ()))
      { image := some (.gray [[128]]), paddleCall := .ok (.list []),
        easyCall := .ok (.list [.list [.list [], .str "never read",
          .float "0.5"]]) }) ∧
    ¬ (msgTryEasy.data <:+:
      (ocr_receipt (initRegistry (.ok ()) (.ok ()) (.ok ()) (.ok ()))
        { image := some (.gray [[128]]), paddleCall := .ok (.list []),
          easyCall := .ok (.list [.list [.list [], .str "never read",
            .float "0.5"]]) }).trace.data) :=
  paddle_empty_text_short_circuit _ _ (.gray [[128]]) [[[128, 128, 128]]]
    (.list []) [] rfl rfl rfl rfl rfl rfl

/-- C3: when PaddleOCR is present and its call returns one page with the two
items `[box, ("Total 500", 0.9)]` and `[box, ("Thank you", 0.8)]`, the result
text is exactly `"Total 500\nThank you"` (tokens joined by newline, stripped),
EasyOCR is never invoked (the outcome is independent of the EasyOCR call),
and the trace does not mention attempting EasyOCR. -/
theorem paddle_two_items_no_easy (reg : Registry) (req : Request)
    (img : Image) (bgr : List (List (List Nat)))
    (himg : req.image = some img) (hcvt : cvtColor img = .ok bgr)
    (hp : reg.paddlePresent = true) (hcall : req.paddleCall = .ok demoRes) :
    (ocr_receipt reg req).text = "Total 500\nThank you" ∧
    (ocr_receipt reg req).trace =
      joinNL [msgTmp, msgTryPaddle, msgPaddleReturned] ∧
    (∀ c, ocr_receipt reg { req with easyCall := c } = ocr_receipt reg req) ∧
    ¬ (msgTryEasy.data <:+: (ocr_receipt reg req).trace.data) ∧
    ¬ ("EasyOCR".data <:+: (ocr_receipt reg req).trace.data) := by
  have hb : paddleBranch req [msgTmp] = .ret "Total 500\nThank you"
      [msgTmp, msgTryPaddle, msgPaddleReturned] := by
    unfold paddleBranch
    rw [hcall]
    rfl
  have hcore : ocrCore reg req [msgTmp] =
      ("Total 500\nThank you", [msgTmp, msgTryPaddle, msgPaddleReturned],
        false) :=
    ocrCore_paddle_ret reg req _ _ _ hp hb
  have hout := ocr_receipt_run reg req img bgr himg hcvt
  rw [hcore] at hout
  refine ⟨by rw [hout], by rw [hout], ?_, by rw [hout]; decide,
    by rw [hout]; decide⟩
  intro c
  have hcore2 : ocrCore reg { req with easyCall := c } [msgTmp] =
      ("Total 500\nThank you", [msgTmp, msgTryPaddle, msgPaddleReturned],
        false) :=
    ocrCore_paddle_ret reg { req with easyCall := c } _ _ _ hp hb
  have hout2 := ocr_receipt_run reg { req with easyCall := c } img bgr himg hcvt
  rw [hcore2] at hout2
  rw [hout, hout2]

/-- Witness for C3 at a concrete registry, image and EasyOCR behavior. -/
theorem paddle_two_items_no_easy_witness :
    (ocr_receipt (initRegistry (.ok ()) (.ok ()) (.ok ()) (.ok ()))
      { image := some (.gray [[128]]), paddleCall := .ok demoRes,
        easyCall := .error "not reached" }).text = "Total 500\nThank you" ∧
    (ocr_receipt (initRegistry (.ok ()) (.ok ()) (.ok ()) (.ok ()))
      { image := some (.gray [[128]]), paddleCall := .ok demoRes,
        easyCall := .error "not reached" }).trace =
      joinNL [msgTmp, msgTryPaddle, msgPaddleReturned] ∧
    (∀ c, ocr_receipt (initRegistry (.ok ()) (.ok ()) (.ok ()) (.ok ()))
      { image := some (.gray [[128]]), paddleCall := .ok demoRes,
        easyCall := c } =
      ocr_receipt (initRegistry (.ok ()) (.ok ()) (.ok ()) (.ok ()))
      { image := some (.gray [[128]]), paddleCall := .ok demoRes,
        easyCall := .error "not reached" }) ∧
    ¬ (msgTryEasy.data <:+:
      (ocr_receipt (initRegistry (.ok ()) (.ok ()) (.ok ()) (.ok ()))
        { image := some (.gray [[128]]), paddleCall := .ok demoRes,
          easyCall := .error "not reached" }).trace.data) ∧
    ¬ ("EasyOCR".data <:+:
      (ocr_receipt (initRegistry (.ok ()) (.ok ()) (.ok ()) (.ok ()))
        { image := some (.gray [[128]]), paddleCall := .ok demoRes,
          easyCall := .error "not reached" }).trace.data) :=
  paddle_two_items_no_easy _ _ (.gray [[128]]) [[[128, 128, 128]]]
    rfl rfl rfl rfl

/-- A well-formed EasyOCR detection item `[bbox, text, conf]`. -/
def easyItemOK : PyVal :=
  .list [.list [.int 0, .int 0], .str "Receipt OK", .float "0.99"]

/-- An EasyOCR raw result holding the single item above. -/
def easyResOK : PyVal := .list [easyItemOK]

/-- C4: when PaddleOCR is present but its call raises with detail `e`, and
EasyOCR is present and returns one item with text `"Receipt OK"`, the final
text is `"Receipt OK"` and the trace is exactly the PaddleOCR attempt line,
the PaddleOCR failure header with the full diagnostic detail `e`, then the
EasyOCR attempt and success lines — the failure entry strictly before the
success entry, and the PaddleOCR exception never propagates (the function
returns normally). -/
theorem paddle_raises_easy_recovers (reg : Registry) (req : Request)
    (img : Image) (bgr : List (List (List Nat))) (e : String)
    (himg : req.image = some img) (hcvt : cvtColor img = .ok bgr)
    (hp : reg.paddlePresent = true) (hpc : req.paddleCall = .error e)
    (he : reg.easyPresent = true) (hec : req.easyCall = .ok easyResOK) :
    (ocr_receipt reg req).text = "Receipt OK" ∧
    (ocr_receipt reg req).trace =
      joinNL [msgTmp, msgTryPaddle, msgPaddleFailHdr, e,
        msgTryEasy, msgEasyReturned] := by
  have hb : paddleBranch req [msgTmp] =
      .fail [msgTmp, msgTryPaddle, msgPaddleFailHdr, e] := by
    unfold paddleBranch
    rw [hpc]
    rfl
  have heb : easyBranch req [msgTmp, msgTryPaddle, msgPaddleFailHdr, e] =
      .ret "Receipt OK" [msgTmp, msgTryPaddle, msgPaddleFailHdr, e,
        msgTryEasy, msgEasyReturned] := by
    unfold easyBranch
    rw [hec]
    rfl
  have hes : easyStage reg req [msgTmp, msgTryPaddle, msgPaddleFailHdr, e] =
      ("Receipt OK", [msgTmp, msgTryPaddle, msgPaddleFailHdr, e,
        msgTryEasy, msgEasyReturned], false) := by
    unfold easyStage
    rw [he, heb]
    rfl
  have hcore : ocrCore reg req [msgTmp] =
      ("Receipt OK", [msgTmp, msgTryPaddle, msgPaddleFailHdr, e,
        msgTryEasy, msgEasyReturned], false) := by
    rw [ocrCore_paddle_fail reg req _ _ hp hb, hes]
  have hout := ocr_receipt_run reg req img bgr himg hcvt
  rw [hcore] at hout
  exact ⟨by rw [hout], by rw [hout]⟩

/-- Witness for C4 at a concrete registry, request and failure detail. -/
theorem paddle_raises_easy_recovers_witness :
    (ocr_receipt (initRegistry (.ok ()) (.ok ()) (.ok ()) (.ok ()))
      { image := some (.gray [[128]]),
        paddleCall := .error "RuntimeError: paddle crashed",
        easyCall := .ok easyResOK }).text = "Receipt OK" ∧
    (ocr_receipt (initRegistry (.ok ()) (.ok ()) (.ok ()) (.ok ()))
      { image := some (.gray [[128]]),
        paddleCall := .error "RuntimeError: paddle crashed",
        easyCall := .ok easyResOK }).trace =
      joinNL [msgTmp, msgTryPaddle, msgPaddleFailHdr,
        "RuntimeError: paddle crashed", msgTryEasy, msgEasyReturned] :=
  paddle_raises_easy_recovers _ _ (.gray [[128]]) [[[128, 128, 128]]]
    "RuntimeError: paddle crashed" rfl rfl rfl rfl rfl rfl

/-- Registry state after a successful PaddleOCR import and construction but a
failed EasyOCR import. -/
def regPaddleOnly : Registry :=
  initRegistry (.ok ()) (.error "ModuleNotFoundError: No module named easyocr")
    (.ok ()) (.ok ())

/-- A request whose PaddleOCR call succeeds with an empty page list. -/
def reqPaddleEmptyRes : Request :=
  { image := some (.gray [[128]]), paddleCall := .ok (.list []),
    easyCall := .error "never invoked" }

/-- C1 counterexample: with PaddleOCR available and EasyOCR unavailable (its
failure detail stored), a PaddleOCR call that succeeds with empty extracted
output makes `ocr_receipt` return empty text — so this is a request in which
every available engine produced empty output — yet the trace neither lists
the unavailable EasyOCR engine with its stored failure detail nor contains
the remediation hints, contradicting the claim; the short-circuit at app.py
line 112 returns before the fallthrough block. -/
theorem empty_output_skips_unavailable_listing_and_hints :
    regPaddleOnly.paddlePresent = true ∧
    regPaddleOnly.EASY_AVAILABLE = false ∧
    regPaddleOnly.easy_import_error =
      some "ModuleNotFoundError: No module named easyocr" ∧
    (ocr_receipt regPaddleOnly reqPaddleEmptyRes).text = "" ∧
    (ocr_receipt regPaddleOnly reqPaddleEmptyRes).trace =
      joinNL [msgTmp, msgTryPaddle, msgPaddleReturned, msgPaddleEmpty] ∧
    ¬ ("Рекомендации".data <:+:
        (ocr_receipt regPaddleOnly reqPaddleEmptyRes).trace.data) ∧
    ¬ ("EasyOCR".data <:+:
        (ocr_receipt regPaddleOnly reqPaddleEmptyRes).trace.data) :=
  ⟨rfl, rfl, rfl, rfl, rfl, by decide, by decide⟩

theorem easyStage_fallthrough (reg : Registry) (req : Request)
    (d : List String)
    (hefail : reg.easyPresent = true → ∃ e, req.easyCall = .error e) :
    ∃ dpre tb, easyStage reg req d = ("", dpre ++ finalTail reg, tb) := by
  cases he : reg.easyPresent with
  | false => exact ⟨d, true, by unfold easyStage; rw [he]; rfl⟩
  | true =>
    obtain ⟨e, hec⟩ := hefail he
    have heb : easyBranch req d =
        .fail (d ++ [msgTryEasy] ++ [msgEasyFailHdr, e]) := by
      unfold easyBranch
      rw [hec]
    exact ⟨d ++ [msgTryEasy] ++ [msgEasyFailHdr, e], false,
      by unfold easyStage; rw [he, heb]; rfl⟩

/-- C1 amended: if every engine is unavailable, or every engine whose handle
is present raises when called, `ocr_receipt` returns empty text, the trace
contains every remediation hint line, and for each engine whose availability
flag is cleared the trace contains the unavailable-engine notice together
with its stored failure detail (or the no-information default); in
particular, with both engines unavailable the trace mentions both engine
names and both stored details, and nothing is raised.  (The original claim
also covered "every available engine produced empty output", which the code
contradicts — see the counterexample.) -/
theorem unavailable_or_raising_engines_trace (reg : Registry) (req : Request)
    (img : Image) (bgr : List (List (List Nat)))
    (himg : req.image = some img) (hcvt : cvtColor img = .ok bgr)
    (hpfail : reg.paddlePresent = true → ∃ e, req.paddleCall = .error e)
    (hefail : reg.easyPresent = true → ∃ e, req.easyCall = .error e) :
    (ocr_receipt reg req).text = "" ∧
    (∀ h ∈ hintLines, h.data <:+: (ocr_receipt reg req).trace.data) ∧
    (reg.PADDLE_AVAILABLE = false →
      msgPaddleUnavailable.data <:+: (ocr_receipt reg req).trace.data ∧
      (pyOr reg.paddle_import_error msgNoInfo).data <:+:
        (ocr_receipt reg req).trace.data) ∧
    (reg.EASY_AVAILABLE = false →
      msgEasyUnavailable.data <:+: (ocr_receipt reg req).trace.data ∧
      (pyOr reg.easy_import_error msgNoInfo).data <:+:
        (ocr_receipt reg req).trace.data) := by
  have key : ∃ dpre tb,
      ocrCore reg req [msgTmp] = ("", dpre ++ finalTail reg, tb) := by
    cases hp : reg.paddlePresent with
    | false =>
      rw [ocrCore_no_paddle reg req [msgTmp] hp]
      exact easyStage_fallthrough reg req [msgTmp] hefail
    | true =>
      obtain ⟨e, hpc⟩ := hpfail hp
      have hb : paddleBranch req [msgTmp] =
          .fail [msgTmp, msgTryPaddle, msgPaddleFailHdr, e] := by
        unfold paddleBranch
        rw [hpc]
        rfl
      rw [ocrCore_paddle_fail reg req _ _ hp hb]
      exact easyStage_fallthrough reg req _ hefail
  obtain ⟨dpre, tb, hcore⟩ := key
  have hout := ocr_receipt_run reg req img bgr himg hcvt
  rw [hcore] at hout
  have htrace : (ocr_receipt reg req).trace =
      joinNL (dpre ++ finalTail reg) := by rw [hout]
  have hmem : ∀ s ∈ finalTail reg,
      s.data <:+: (ocr_receipt reg req).trace.data := by
    intro s hs
    rw [htrace]
    exact infixData_of_mem_joinSep "\n" (List.mem_append_right dpre hs)
  refine ⟨by rw [hout], ?_, ?_, ?_⟩
  · intro h hh
    refine hmem h ?_
    simp [finalTail, hh]
  · intro hpa
    constructor
    · refine hmem _ ?_
      simp [finalTail, hpa]
    · refine hmem _ ?_
      simp [finalTail, hpa]
  · intro hea
    constructor
    · refine hmem _ ?_
      simp [finalTail, hea]
    · refine hmem _ ?_
      simp [finalTail, hea]

/-- Registry state after both imports fail. -/
def regBothMissing : Registry :=
  initRegistry (.error "ImportError: paddleocr") (.error "ImportError: easyocr")
    (.ok ()) (.ok ())

/-- A request whose engine calls (never reached) would raise. -/
def reqBothRaise : Request :=
  { image := some (.gray [[7]]), paddleCall := .error "x",
    easyCall := .error "y" }

/-- Witness for the amended C1: with both engines unavailable the result text
is empty and the trace contains both engine names, both stored failure
details, and the first remediation hint line. -/
theorem unavailable_or_raising_engines_trace_witness :
    (ocr_receipt regBothMissing reqBothRaise).text = "" ∧
    "\nРекомендации:".data <:+:
      (ocr_receipt regBothMissing reqBothRaise).trace.data ∧
    msgPaddleUnavailable.data <:+:
      (ocr_receipt regBothMissing reqBothRaise).trace.data ∧
    "ImportError: paddleocr".data <:+:
      (ocr_receipt regBothMissing reqBothRaise).trace.data ∧
    msgEasyUnavailable.data <:+:
      (ocr_receipt regBothMissing reqBothRaise).trace.data ∧
    "ImportError: easyocr".data <:+:
      (ocr_receipt regBothMissing reqBothRaise).trace.data := by
  obtain ⟨h1, h2, h3, h4⟩ :=
    unavailable_or_raising_engines_trace regBothMissing reqBothRaise
      (.gray [[7]]) [[[7, 7, 7]]] rfl rfl
      (fun h => absurd h (by decide)) (fun h => absurd h (by decide))
  exact ⟨h1, h2 _ (by decide), (h3 rfl).1, (h3 rfl).2,
    (h4 rfl).1, (h4 rfl).2⟩

end OcrApp
